import Mathlib

/-!
Verification of the Layer scene-graph / Transition tweening core of
nodebox-opengl (src/nodebox/graphics/context.py) against its
natural-language specification.

The Python global clock `TIME` is passed explicitly as a `now` argument to
every operation that reads it.  Numeric values are rationals.
-/

namespace NodeBoxGL

/-- Interpolation modes of `Transition` (the LINEAR / SMOOTH constants in
context.py). -/
inductive Interpolation where
  | linear
  | smooth
  deriving DecidableEq, Repr

/-- Modelled from the spec: `geometry.smoothstep` (graphics/geometry.py is not
under src/).  The spec states that `update` uses `f(t) = smoothstep(0,1,t)`
for SMOOTH interpolation and that smoothstep at t = 0.5 equals 0.5; the
function is 0 below `a`, 1 at or above `b`, and the cubic `t*t*(3-2*t)` of the
normalized position in between. -/
def smoothstep (a b x : ℚ) : ℚ :=
  if x < a then 0
  else if b ≤ x then 1
  else
    let t := (x - a) / (b - a)
    t * t * (3 - 2 * t)

/-- `Transition` from context.py: previous value `v0` (`Transition.start`),
current value `vi` (`Transition.current`), desired value `v1`
(`Transition.stop`), start time `t0` and end time `t1`. -/
structure Transition where
  v0 : ℚ
  vi : ℚ
  v1 : ℚ
  t0 : ℚ
  t1 : ℚ
  interpolation : Interpolation
  deriving DecidableEq, Repr

namespace Transition

/-- `Transition.__init__`: start = current = stop = value, both times equal to
the current clock. -/
def init (value : ℚ) (now : ℚ) (interpolation : Interpolation) : Transition :=
  { v0 := value, vi := value, v1 := value, t0 := now, t1 := now,
    interpolation := interpolation }

/-- `Transition.set(value, duration)`.  Python tests `if not duration:`, so
only a duration exactly equal to 0 (falsy) snaps the current value; every
non-zero duration, negative ones included, leaves `vi` alone.  `v0` is then
assigned the (possibly just updated) `vi`. -/
def set (tr : Transition) (value : ℚ) (duration : ℚ) (now : ℚ) : Transition :=
  let vi := if duration = 0 then value else tr.vi
  { tr with vi := vi, v1 := value, v0 := vi, t0 := now, t1 := now + duration }

/-- `Transition.get`: returns the stop value. -/
def get (tr : Transition) : ℚ := tr.v1

/-- `Transition.current`. -/
def current (tr : Transition) : ℚ := tr.vi

/-- `Transition.done`: `TIME >= self._t1`. -/
def done (tr : Transition) (now : ℚ) : Bool := tr.t1 ≤ now

/-- `Transition.update`: returns the new transition and the done flag.  The
`self._vi is None` disjunct of the source cannot arise here because values are
plain rationals (it exists for `Transition(None)` placeholders produced by
`copy`). -/
def update (tr : Transition) (now : ℚ) : Transition × Bool :=
  if tr.t1 ≤ now then
    ({ tr with vi := tr.v1 }, true)
  else
    let t := (now - tr.t0) / (tr.t1 - tr.t0)
    let vi :=
      match tr.interpolation with
      | .linear => tr.v0 + (tr.v1 - tr.v0) * t
      | .smooth => tr.v0 + (tr.v1 - tr.v0) * smoothstep 0 1 t
    ({ tr with vi := vi }, false)

end Transition

/-- C7 counterexample scenario: a transition at value 0 re-targeted to 5 with
the negative duration -1 at clock time 0. -/
def c7Tr : Transition := (Transition.init 0 0 .smooth).set 5 (-1) 0

/-- The floor of a rational, written with `Int.fdiv` so that it reduces
inside the kernel. -/
def qfloor (q : ℚ) : ℤ := Int.fdiv q.num (q.den : ℤ)

/-- Python 3 `round()` (used by `Layer._transform` and `Layer._draw` on the
current x/y and origin values): round half to even. -/
def pyround (q : ℚ) : ℤ :=
  let f := qfloor q
  let r := q - (f : ℚ)
  if r < 1 / 2 then f
  else if 1 / 2 < r then f + 1
  else if f % 2 = 0 then f else f + 1

/-- Primitive affine operations.  `geometry.AffineTransform` is not under
src/, so transforms are modelled from the spec as the formal sequence of the
operations applied to them. -/
inductive TOp where
  | translate (x y : ℚ)
  | rotate (angle : ℚ)
  | scaleBy (x y : ℚ)
  deriving DecidableEq, Repr

/-- Modelled from the spec: `geometry.AffineTransform` (graphics/geometry.py
is not under src/).  A transform is the list of primitive operations applied
to it, outermost (first applied method call) first; `prepend` places another
transform's operations before this one's — exactly the parent-before-child
composition the spec describes for world transforms. -/
abbrev TAff := List TOp

namespace TAff

/-- `Transform()`: the identity transform. -/
def identity : TAff := []

/-- `Transform.translate(x, y)`. -/
def translate (t : TAff) (x y : ℚ) : TAff := t ++ [TOp.translate x y]

/-- `Transform.rotate(angle)`. -/
def rotate (t : TAff) (a : ℚ) : TAff := t ++ [TOp.rotate a]

/-- `Transform.scale(x, y)`. -/
def scaleBy (t : TAff) (x y : ℚ) : TAff := t ++ [TOp.scaleBy x y]

/-- `Transform.prepend(other)`: other's operations come first. -/
def prepend (t other : TAff) : TAff := other ++ t

/-- `Transform.copy()`. -/
def copy (t : TAff) : TAff := t

end TAff

/-- Apply one primitive operation to a point.  Rotation angles are in degrees
as in the source; their cosine and sine are supplied by the oracles `c` and
`s`, since exact trigonometry is not available over the rationals. -/
def TOp.apply (c s : ℚ → ℚ) : TOp → ℚ × ℚ → ℚ × ℚ
  | .translate tx ty, (px, py) => (px + tx, py + ty)
  | .rotate a, (px, py) => (c a * px - s a * py, s a * px + c a * py)
  | .scaleBy sx sy, (px, py) => (sx * px, sy * py)

/-- Apply a transform to a point: the last (innermost) operation acts first,
the first (outermost) operation acts last. -/
def TAff.apply (c s : ℚ → ℚ) (t : TAff) (p : ℚ × ℚ) : ℚ × ℚ :=
  t.foldr (fun op q => TOp.apply c s op q) p

/-- Modelled from the spec: `geometry.INFINITE` (graphics/geometry.py is not
under src/), the huge sentinel substituted for an unset (None) width or
height. -/
def INFINITE : ℚ := 10 ^ 20

/-- Modelled from the spec: `geometry.point_in_polygon` (graphics/geometry.py
is not under src/); even-odd ray casting: a horizontal ray to the left of
(x, y) is intersected with every polygon edge. -/
def point_in_polygon (pts : List (ℚ × ℚ)) (x y : ℚ) : Bool :=
  (pts.zip (pts.rotateLeft 1)).foldl
    (fun odd e =>
      let x0 := e.1.1
      let y0 := e.1.2
      let x1 := e.2.1
      let y1 := e.2.2
      if ((y0 < y ∧ y ≤ y1) ∨ (y1 < y ∧ y ≤ y0)) ∧
          x0 + (y - y0) / (y1 - y0) * (x1 - x0) < x then !odd
      else odd)
    false

/-- The RELATIVE / ABSOLUTE origin-mode tag of a Layer. -/
inductive OriginMode where
  | relative
  | absolute
  deriving DecidableEq, Repr

/-- A transition whose value is an optional rational: `Layer._width` and
`Layer._height` hold None for layers of unbounded size.  Same fields and
semantics as `Transition`; `update` returns none where the Python arithmetic
on a None endpoint would raise a TypeError. -/
structure TransitionO where
  v0 : Option ℚ
  vi : Option ℚ
  v1 : Option ℚ
  t0 : ℚ
  t1 : ℚ
  interpolation : Interpolation
  deriving DecidableEq, Repr

namespace TransitionO

/-- `Transition.__init__` for optional values. -/
def init (value : Option ℚ) (now : ℚ) (interpolation : Interpolation) :
    TransitionO :=
  { v0 := value, vi := value, v1 := value, t0 := now, t1 := now,
    interpolation := interpolation }

/-- `Transition.set` for optional values (same truthiness caveat: a duration
of exactly 0 snaps the current value). -/
def set (tr : TransitionO) (value : Option ℚ) (duration : ℚ) (now : ℚ) :
    TransitionO :=
  let vi := if duration = 0 then value else tr.vi
  { tr with vi := vi, v1 := value, v0 := vi, t0 := now, t1 := now + duration }

/-- `Transition.get`. -/
def get (tr : TransitionO) : Option ℚ := tr.v1

/-- `Transition.current`. -/
def current (tr : TransitionO) : Option ℚ := tr.vi

/-- `Transition.update` for optional values: the `self._vi is None` disjunct
is live here; interpolating between None endpoints would raise in Python and
yields none. -/
def update (tr : TransitionO) (now : ℚ) : Option (TransitionO × Bool) :=
  if tr.t1 ≤ now ∨ tr.vi = none then some ({ tr with vi := tr.v1 }, true)
  else
    match tr.v0, tr.v1 with
    | some a, some b =>
      let t := (now - tr.t0) / (tr.t1 - tr.t0)
      let v :=
        match tr.interpolation with
        | .linear => a + (b - a) * t
        | .smooth => a + (b - a) * smoothstep 0 1 t
      some ({ tr with vi := some v }, false)
    | _, _ => none

end TransitionO

/-- The Layer data of context.py.  Fields mirror the private attributes
(`_x`, `_y`, `_width`, `_height`, `_dx`, `_dy`, `_origin`, `_scale`,
`_rotation`, `_opacity`, `_transform_cache`, `_transform_stack`) plus the
public flags; `parent`/`canvas` are ids of containers in a `Scene`, and
`children` is the underlying list contents (Layer inherits from list).
`instDict` models extra instance attributes created by plain Python
assignment (needed for the shadowed `scale` attribute, see C5). -/
structure Layer where
  parent : Option Nat
  canvas : Option Nat
  children : List Nat
  x : Transition
  y : Transition
  width : TransitionO
  height : TransitionO
  dx : Transition
  dy : Transition
  originMode : OriginMode
  scale : Transition
  rotation : Transition
  opacity : Transition
  duration : ℚ
  top : Bool
  flipped : Bool
  clipped : Bool
  hidden : Bool
  enabled : Bool
  transformCache : Option TAff
  transformStack : Option TAff
  instDict : List (String × ℚ)
  deriving DecidableEq, Repr

/-- `Layer.__init__` (with the origin mode passed explicitly; flags start as
in the source: top, enabled true; flipped, clipped, hidden false; caches
empty; detached from any container). -/
def Layer.init (x y : ℚ) (width height : Option ℚ) (odx ody : ℚ)
    (mode : OriginMode) (scal rot opac dur now : ℚ) : Layer :=
  { parent := none, canvas := none, children := []
    x := Transition.init x now .smooth
    y := Transition.init y now .smooth
    width := TransitionO.init width now .smooth
    height := TransitionO.init height now .smooth
    dx := Transition.init odx now .smooth
    dy := Transition.init ody now .smooth
    originMode := mode
    scale := Transition.init scal now .smooth
    rotation := Transition.init rot now .smooth
    opacity := Transition.init opac now .smooth
    duration := dur
    top := true, flipped := false, clipped := false
    hidden := false, enabled := true
    transformCache := none, transformStack := none, instDict := [] }

namespace Layer

/-- `Layer.x` getter: the transition's stop value. -/
def xGet (L : Layer) : ℚ := L.x.get

/-- `Layer.y` getter. -/
def yGet (L : Layer) : ℚ := L.y.get

/-- `Layer.width` getter. -/
def widthGet (L : Layer) : Option ℚ := L.width.get

/-- `Layer.height` getter. -/
def heightGet (L : Layer) : Option ℚ := L.height.get

/-- `Layer.rotation` getter. -/
def rotationGet (L : Layer) : ℚ := L.rotation.get

/-- `Layer.opacity` getter. -/
def opacityGet (L : Layer) : ℚ := L.opacity.get

/-- `Layer.x` setter: clears the local transform cache and re-targets the
transition with the layer's own duration. -/
def setX (L : Layer) (v now : ℚ) : Layer :=
  { L with transformCache := none, x := L.x.set v L.duration now }

/-- `Layer.y` setter. -/
def setY (L : Layer) (v now : ℚ) : Layer :=
  { L with transformCache := none, y := L.y.set v L.duration now }

/-- `Layer.xy` setter: assigns x then y. -/
def setXY (L : Layer) (vx vy now : ℚ) : Layer := (L.setX vx now).setY vy now

/-- `Layer.rotation` setter. -/
def setRotation (L : Layer) (v now : ℚ) : Layer :=
  { L with transformCache := none, rotation := L.rotation.set v L.duration now }

/-- `Layer.opacity` setter (no cache invalidation in the source). -/
def setOpacity (L : Layer) (v now : ℚ) : Layer :=
  { L with opacity := L.opacity.set v L.duration now }

/-- `Layer._get_origin(relative=False)`: the absolute origin point, from the
transitions' current values; a RELATIVE origin is multiplied by width/height,
an unset (None) dimension yielding 0 (`w is not None and dx*w or 0`). -/
def originAbs (L : Layer) : ℚ × ℚ :=
  match L.originMode with
  | .absolute => (L.dx.current, L.dy.current)
  | .relative =>
    ((match L.width.current with
      | none => 0
      | some w => L.dx.current * w),
     (match L.height.current with
      | none => 0
      | some h => L.dy.current * h))

/-- `Layer._get_origin(relative=True)`: an ABSOLUTE origin is divided by
width/height, an unset or zero dimension yielding 0. -/
def originRel (L : Layer) : ℚ × ℚ :=
  match L.originMode with
  | .relative => (L.dx.current, L.dy.current)
  | .absolute =>
    let w := match L.width.current with | none => 0 | some w => w
    let h := match L.height.current with | none => 0 | some h => h
    ((if w ≠ 0 then L.dx.current / w else 0),
     (if h ≠ 0 then L.dy.current / h else 0))

/-- `Layer._set_origin(x, y, relative)`: clears the transform cache,
re-targets both origin transitions with the layer's duration, and records the
mode. -/
def setOrigin (L : Layer) (ox oy : ℚ) (relative : Bool) (now : ℚ) : Layer :=
  { L with transformCache := none
           dx := L.dx.set ox L.duration now
           dy := L.dy.set oy L.duration now
           originMode := if relative then .relative else .absolute }

/-- `Layer.origin(x, y, relative)`: sets the origin when both coordinates are
given, then returns the (relative or absolute) origin of the resulting layer.
The `x == CENTER` comparison of the source is always false for numeric x. -/
def origin (L : Layer) (ox oy : Option ℚ) (relative : Bool) (now : ℚ) :
    Layer × (ℚ × ℚ) :=
  let L2 :=
    match ox, oy with
    | some xv, some yv => L.setOrigin xv yv relative now
    | _, _ => L
  (L2, if relative then L2.originRel else L2.originAbs)

/-- The local transformation matrix built by `Layer._transform` when the
cache is empty: translate → flip → rotate → scale → translate by the negated
rounded origin, all from the transitions' current values. -/
def computeLocalTransform (L : Layer) : TAff :=
  let o := L.originAbs
  let tf := TAff.identity
  let tf := tf.translate (pyround L.x.current : ℚ) (pyround L.y.current : ℚ)
  let tf := if L.flipped then tf.scaleBy (-1) 1 else tf
  let tf := tf.rotate L.rotation.current
  let tf := tf.scaleBy L.scale.current L.scale.current
  tf.translate (-(pyround o.1 : ℚ)) (-(pyround o.2 : ℚ))

/-- `Layer._update` restricted to the layer itself (the recursion into
children is `sceneUpdate` below): updates the eight geometric transitions,
clears the local transform cache when any of them is still animating, then
updates opacity.  The user hook `Layer.update()` is a no-op in the base
class.  Returns none where a None-valued width/height interpolation would
raise in Python. -/
def updateSelf (L : Layer) (now : ℚ) : Option (Layer × Bool) :=
  let px := L.x.update now
  let py := L.y.update now
  match L.width.update now, L.height.update now with
  | some pw, some ph =>
    let pdx := L.dx.update now
    let pdy := L.dy.update now
    let ps := L.scale.update now
    let pr := L.rotation.update now
    let dn := px.2 && py.2 && pw.2 && ph.2 && pdx.2 && pdy.2 && ps.2 && pr.2
    let po := L.opacity.update now
    some ({ L with x := px.1, y := py.1, width := pw.1, height := ph.1,
                   dx := pdx.1, dy := pdy.1, scale := ps.1, rotation := pr.1,
                   opacity := po.1,
                   transformCache :=
                     if dn then L.transformCache else none }, dn)
  | _, _ => none

end Layer

/-- How a name defined in a Python class body can be bound. -/
inductive ClassMember where
  | property
  | method
  deriving DecidableEq, Repr

/-- The successive bindings of the name `scale` in the Layer class body of
context.py, in source order: first the property (getter/setter re-targeting
`_scale`, lines 1459-1466), then the plain method `def scale(self, f)`
(line 1588). -/
def layerScaleClassDefs : List ClassMember := [.property, .method]

/-- In a Python class body the last binding of a name wins. -/
def effectiveBinding (defs : List ClassMember) : Option ClassMember :=
  defs.getLast?

/-- The effect of the Python assignment `layer.scale = v`: the property
setter (clear the cache, re-target `_scale`) runs only if the effective class
attribute is a data descriptor (a property); a plain function is a non-data
descriptor, so the assignment just writes an instance attribute and the
transition and cache are untouched. -/
def Layer.setScaleAttr (L : Layer) (v now : ℚ) : Layer :=
  if effectiveBinding layerScaleClassDefs = some .property then
    { L with transformCache := none, scale := L.scale.set v L.duration now }
  else
    { L with instDict := L.instDict ++ [("scale", v)] }

/-- A scene: the layers of the tree keyed by their process-unique id
(`Layer._id`, which is also what Layer equality compares). -/
abbrev Scene := List (Nat × Layer)

namespace Scene

/-- Look a layer up by id. -/
def find (s : Scene) (i : Nat) : Option Layer :=
  (List.find? (fun e => e.1 == i) s).map (fun e => e.2)

/-- Replace the layer stored under an id (mutation of the Python object). -/
def set (s : Scene) (i : Nat) (L : Layer) : Scene :=
  s.map (fun e => if e.1 == i then (i, L) else e)

end Scene

/-- `Layer.append(layer)`: `list.append(self, layer)` followed by the direct
dictionary write `layer.__dict__["parent"] = self`.  Nothing removes the
child from a previous container. -/
def appendChild (s : Scene) (p c : Nat) : Option Scene :=
  match s.find p, s.find c with
  | some P, some C =>
    some ((s.set p { P with children := P.children ++ [c] }).set c
      { C with parent := some p })
  | _, _ => none

/-- `Layer.insert(index, layer)`: `list.insert` followed by the same direct
parent write (indices beyond the end, which Python clamps, are not used
here). -/
def insertChild (s : Scene) (p idx c : Nat) : Option Scene :=
  match s.find p, s.find c with
  | some P, some C =>
    some ((s.set p { P with children := P.children.insertIdx idx c }).set c
      { C with parent := some p })
  | _, _ => none

/-- `Layer.remove(layer)`: `list.remove` (ValueError — none — when the child
is not a member) and the parent pointer is nulled. -/
def removeChild (s : Scene) (p c : Nat) : Option Scene :=
  match s.find p, s.find c with
  | some P, some C =>
    if c ∈ P.children then
      some ((s.set p { P with children := P.children.erase c }).set c
        { C with parent := none })
    else none
  | _, _ => none

/-- `Layer.pop(index)`: removes the child at the index and nulls its parent
pointer; returns the popped id. -/
def popChild (s : Scene) (p idx : Nat) : Option (Scene × Nat) :=
  match s.find p with
  | some P =>
    match P.children[idx]? with
    | some c =>
      let s1 := s.set p { P with children := P.children.eraseIdx idx }
      match s1.find c with
      | some C => some (s1.set c { C with parent := none }, c)
      | none => none
    | none => none
  | none => none

/-- `Layer._set_container("parent", value)` (the body of the `parent`
property setter): if the layer is listed by its current container, that
container's `remove` (which also nulls the pointer) is invoked; then the
layer is list-appended to the new container unless already a member; finally
the parent pointer is overwritten. -/
def setParent (s : Scene) (c : Nat) (value : Option Nat) : Option Scene :=
  match s.find c with
  | none => none
  | some C =>
    let step1 : Option Scene :=
      match C.parent with
      | none => some s
      | some p =>
        match s.find p with
        | none => some s
        | some P => if c ∈ P.children then removeChild s p c else some s
    match step1 with
    | none => none
    | some s1 =>
      let step2 : Option Scene :=
        match value with
        | none => some s1
        | some p2 =>
          match s1.find p2 with
          | none => none
          | some P2 =>
            if c ∈ P2.children then some s1
            else some (s1.set p2 { P2 with children := P2.children ++ [c] })
      match step2 with
      | none => none
      | some s2 =>
        match s2.find c with
        | none => none
        | some C2 => some (s2.set c { C2 with parent := value })

/-- The `_flush` traversal of `Layer._transform`: empty the cumulative
transform cache of the layer and of every descendant (`Layer.traverse`).
The fuel bounds the recursion depth; every use below supplies more fuel than
the tree is deep. -/
def flushStack : Nat → Scene → Nat → Scene
  | 0, s, _ => s
  | fuel + 1, s, i =>
    match s.find i with
    | none => s
    | some L =>
      let s1 := s.set i { L with transformStack := none }
      L.children.foldl (fun acc c => flushStack fuel acc c) s1

/-- `Layer._transform(local)`: recomputes the local matrix when its cache is
empty (flushing every descendant's cumulative cache), and for `local=False`
returns the cumulative matrix, composing the parent's cumulative matrix
(translated by the parent's rounded absolute origin) with the local one and
caching the result — but only when the cumulative cache is empty.  Returns
the possibly mutated scene together with the matrix. -/
def transform : Nat → Scene → Nat → Bool → Option (Scene × TAff)
  | 0, _, _, _ => none
  | fuel + 1, s, i, loc =>
    match s.find i with
    | none => none
    | some L0 =>
      let s1 :=
        match L0.transformCache with
        | some _ => s
        | none =>
          flushStack (fuel + 1)
            (s.set i { L0 with transformCache := some L0.computeLocalTransform }) i
      match s1.find i with
      | none => none
      | some L =>
        match L.transformCache with
        | none => none
        | some cache =>
          if loc then some (s1, cache)
          else
            match L.transformStack with
            | some st => some (s1, st)
            | none =>
              match L.parent with
              | none =>
                let st := cache.copy
                some (s1.set i { L with transformStack := some st }, st)
              | some p =>
                match s1.find p with
                | none => none
                | some PL =>
                  let o := PL.originAbs
                  match transform fuel s1 p false with
                  | none => none
                  | some (s2, ptf) =>
                    let tf := (ptf.copy).translate (pyround o.1 : ℚ) (pyround o.2 : ℚ)
                    let st := (cache.copy).prepend tf
                    match s2.find i with
                    | none => none
                    | some L2 =>
                      some (s2.set i { L2 with transformStack := some st }, st)

/-- `Layer.absolute_position()`: walks the parent chain summing the x/y
attribute reads (which are the transitions' stop values). -/
def absolutePosition : Nat → Scene → Nat → Option (ℚ × ℚ)
  | 0, _, _ => none
  | fuel + 1, s, i =>
    match s.find i with
    | none => none
    | some L =>
      match L.parent with
      | none => some (L.xGet, L.yGet)
      | some p =>
        match absolutePosition fuel s p with
        | none => none
        | some q => some (L.xGet + q.1, L.yGet + q.2)

/-- `Layer.contains(x, y, transformed)`: with `transformed` the four corners
of the (0,0)-(w,h) rectangle are mapped through the cumulative transform
(mutating the caches) and tested by ray casting; otherwise a cheap
axis-aligned test against the absolute position.  Unset dimensions become the
INFINITE sentinel.  `cs`/`sn` are the cosine/sine oracles for rotation
angles in degrees. -/
def contains (cs sn : ℚ → ℚ) (fuel : Nat) (s : Scene) (i : Nat)
    (px py : ℚ) (transformed : Bool) : Option (Scene × Bool) :=
  match s.find i with
  | none => none
  | some L =>
    let w := match L.width.current with | none => INFINITE | some w => w
    let h := match L.height.current with | none => INFINITE | some h => h
    if transformed then
      match transform fuel s i false with
      | none => none
      | some (s1, tf) =>
        let ps := [((0 : ℚ), (0 : ℚ)), (w, 0), (w, h), (0, h)].map
          (TAff.apply cs sn tf)
        some (s1, point_in_polygon ps px py)
    else
      match absolutePosition fuel s i with
      | none => none
      | some q =>
        some (s, decide (q.1 ≤ px) && decide (px ≤ q.1 + w) &&
          decide (q.2 ≤ py) && decide (py ≤ q.2 + h))

/-- The child loop of `Layer.layer_at`: the covered flag accumulates
`hit and not child.top` across the iteration, each child is queried through
`rec` (the recursive call at smaller fuel) on the threaded scene, and the
first non-None answer wins; when no child answers, the layer itself answers
if it was hit. -/
def layerAtLoop (hit : Bool) (selfId : Nat)
    (rec : Scene → Nat → Bool → Option (Scene × Option Nat)) :
    Scene → List Nat → Bool → Option (Scene × Option Nat)
  | s, [], _ => some (s, if hit then some selfId else none)
  | s, c :: rest, covered =>
    let ctop :=
      match s.find c with
      | some CL => CL.top
      | none => false
    let covered2 := covered || (hit && !ctop)
    match rec s c covered2 with
    | none => none
    | some (s2, some r) => some (s2, some r)
    | some (s2, none) => layerAtLoop hit selfId rec s2 rest covered2

/-- `Layer.layer_at(x, y, clipped, enabled, transformed, _covered)`: None for
hidden (or, when requested, disabled) or covered layers; otherwise the layer
hit test runs, children are traversed frontmost-first (the reversed child
list, stably bucketed by the top flag — Python's stable `sorted` by
`not top`; with `clipped` only top children of a hit layer are tried), and
the frontmost hit descendant, else the layer itself, is returned. -/
def layerAt (cs sn : ℚ → ℚ) :
    Nat → Scene → Nat → ℚ → ℚ → Bool → Bool → Bool → Bool →
    Option (Scene × Option Nat)
  | 0, _, _, _, _, _, _, _, _ => none
  | fuel + 1, s, i, px, py, clipped, enabled, transformed, covered =>
    match s.find i with
    | none => none
    | some L =>
      if L.hidden then some (s, none)
      else if enabled && !L.enabled then some (s, none)
      else if covered then some (s, none)
      else
        match contains cs sn (fuel + 1) s i px py transformed with
        | none => none
        | some (s1, hit) =>
          if clipped && !hit then some (s1, none)
          else
            let revd := L.children.reverse
            let isTop := fun c =>
              match s1.find c with
              | some CL => CL.top
              | none => false
            let children :=
              if clipped then revd.filter isTop
              else revd.filter isTop ++ revd.filter (fun c => !isTop c)
            layerAtLoop hit i
              (fun s2 c cov =>
                layerAt cs sn fuel s2 c px py clipped enabled transformed cov)
              s1 children covered

/-- `Canvas.layer_at(x, y)` with the default keyword arguments
(clipped/enabled false, transformed true): tries the top-level layers in
reverse order and returns the first hit. -/
def canvasLayerAt (cs sn : ℚ → ℚ) (fuel : Nat) :
    Scene → List Nat → ℚ → ℚ → Option (Scene × Option Nat)
  | s, [], _, _ => some (s, none)
  | s, c :: rest, px, py =>
    match layerAt cs sn fuel s c px py false false true false with
    | none => none
    | some (s2, some r) => some (s2, some r)
    | some (s2, none) => canvasLayerAt cs sn fuel s2 rest px py

/-- Sequential `_update` of a list of sibling layers on the threaded scene;
`rec` is the recursive per-layer update at smaller fuel. -/
def sceneUpdateList (rec : Scene → Nat → Option Scene) :
    Scene → List Nat → Option Scene
  | s, [] => some s
  | s, c :: rest =>
    match rec s c with
    | none => none
    | some s2 => sceneUpdateList rec s2 rest

/-- `Layer._update`: update the layer's own transitions, then recurse into
the children in declaration order. -/
def sceneUpdateLayer (now : ℚ) : Nat → Scene → Nat → Option Scene
  | 0, _, _ => none
  | fuel + 1, s, i =>
    match s.find i with
    | none => none
    | some L =>
      match L.updateSelf now with
      | none => none
      | some pr =>
        sceneUpdateList (fun s2 c => sceneUpdateLayer now fuel s2 c)
          (s.set i pr.1) pr.1.children

/-- A draw action recorded by the draw pass: the canvas background
(`Canvas.draw`, which clears the screen), one layer's own content
(`Layer.draw` inside `Layer._draw`), or the overlay
(`Canvas.draw_overlay`). -/
inductive DrawCall where
  | background
  | layerContent (i : Nat)
  | overlay
  deriving DecidableEq, Repr

/-- `Layer._draw`: hidden layers draw nothing; otherwise children with
`top=False` are drawn first, then the layer's own content, then children with
`top=True` (transform and clipping set-up are GL state and not recorded). -/
def layerDrawList : Nat → Scene → Nat → List DrawCall
  | 0, _, _ => []
  | fuel + 1, s, i =>
    match s.find i with
    | none => []
    | some L =>
      if L.hidden then []
      else
        let isTop := fun c =>
          match s.find c with
          | some CL => CL.top
          | none => false
        let below := L.children.filter (fun c => !isTop c)
        let above := L.children.filter isTop
        (below.map (layerDrawList fuel s)).flatten ++
          [DrawCall.layerContent i] ++
          (above.map (layerDrawList fuel s)).flatten

/-- The Canvas fields the frame loop reads and writes: the top-level layer
list, the frame counter, the elapsed time, the paused flag and the pending
`window.on_key_pressed` flag (set by the raw key-press/text handlers and
consumed by `_update`).  Window/GL state, mouse and focus bookkeeping are
not needed by the claims. -/
structure CanvasState where
  layers : List Nat
  frame : ℕ
  elapsed : ℚ
  paused : Bool
  onKeyPressed : Bool
  deriving DecidableEq, Repr

/-- A key-press delivery performed by `Canvas._update`: first
`Canvas.on_key_press`, then `on_key_press` of each top-level layer. -/
inductive KeyDelivery where
  | toCanvas
  | toLayer (i : Nat)
  deriving DecidableEq, Repr

/-- `Canvas._update(lapse)`: store the elapsed time; when not paused, set the
global clock to the wall time, advance the frame counter and update every
layer; in either case deliver the queued key press (if any) to the canvas and
the top-level layers and clear the flag.  Returns the new canvas, scene,
global clock value and the key deliveries performed. -/
def canvasUpdate (fuel : Nat) (c : CanvasState) (s : Scene)
    (time wall lapse : ℚ) :
    Option (CanvasState × Scene × ℚ × List KeyDelivery) :=
  let c1 := { c with elapsed := lapse }
  let step1 : Option (CanvasState × Scene × ℚ) :=
    if c1.paused then some (c1, s, time)
    else
      match sceneUpdateList (fun s2 i => sceneUpdateLayer wall fuel s2 i)
        s c1.layers with
      | none => none
      | some s2 => some ({ c1 with frame := c1.frame + 1 }, s2, wall)
  match step1 with
  | none => none
  | some (c2, s2, t2) =>
    if c2.onKeyPressed then
      some ({ c2 with onKeyPressed := false }, s2, t2,
        KeyDelivery.toCanvas :: c2.layers.map KeyDelivery.toLayer)
    else some (c2, s2, t2, [])

/-- `Canvas._draw(lapse)`: returns immediately when paused; otherwise draws
the canvas background, every top-level layer, and the overlay. -/
def canvasDraw (fuel : Nat) (c : CanvasState) (s : Scene) : List DrawCall :=
  if c.paused then []
  else
    DrawCall.background ::
      (c.layers.map (layerDrawList fuel s)).flatten ++ [DrawCall.overlay]

/-- Mutating a layer's rotation attribute through the scene
(`scene[i].rotation = v`). -/
def sceneSetRotation (s : Scene) (i : Nat) (v now : ℚ) : Scene :=
  match s.find i with
  | some L => s.set i (L.setRotation v now)
  | none => s

/-- Mutating a layer's position through the scene
(`scene[i].x = vx; scene[i].y = vy`, i.e. the xy setter). -/
def sceneSetXY (s : Scene) (i : Nat) (vx vy now : ℚ) : Scene :=
  match s.find i with
  | some L => s.set i (L.setXY vx vy now)
  | none => s

/-- Empty every transform cache of the scene: the reference state against
which a "fresh, no caches" recomputation is defined. -/
def clearCaches (s : Scene) : Scene :=
  s.map (fun e => (e.1, { e.2 with transformCache := none,
                                   transformStack := none }))

/-- A 100x100 layer with origin (0,0), scale 1, rotation 0, opacity 1 and
duration 0, wired to the given parent and children. -/
def mkPlainLayer (x y : ℚ) (parent : Option Nat) (children : List Nat) :
    Layer :=
  { Layer.init x y (some 100) (some 100) 0 0 .relative 1 0 1 0 0 with
      parent := parent, children := children }

/-- C1 scenario: the chain A (id 0) → B (id 1) → C (id 2), every layer with
duration 0 so attribute writes take effect immediately. -/
def c1Scene : Scene :=
  [(0, mkPlainLayer 10 20 none [1]),
   (1, mkPlainLayer 30 40 (some 0) [2]),
   (2, mkPlainLayer 5 6 (some 1) [])]

/-- The first read of C's world transform, filling every cache. -/
def c1Step1 : Option (Scene × TAff) := transform 9 c1Scene 2 false

/-- The scene with all caches filled. -/
def c1Filled : Scene := (c1Step1.map Prod.fst).getD []

/-- A's rotation is then mutated from 0 to 90 degrees. -/
def c1Mutated : Scene := sceneSetRotation c1Filled 0 90 1

/-- The very next read of C's world transform after the mutation. -/
def c1Step2 : Option (Scene × TAff) := transform 9 c1Mutated 2 false

/-- The ground truth: what the code computes for C's world transform with
every cache cleared. -/
def c1Fresh : Option (Scene × TAff) := transform 9 (clearCaches c1Mutated) 2 false

/-- Reading A's world transform first (as any hit-test from the root does),
then C's. -/
def c1Step3 : Option (Scene × TAff) :=
  match transform 9 c1Mutated 0 false with
  | some (s, _) => transform 9 s 2 false
  | none => none

/-- C2 scenario: L (id 3) is a child of P1 (id 1); P2 (id 2) is empty. -/
def c2Scene : Scene :=
  [(1, mkPlainLayer 0 0 none [3]),
   (2, mkPlainLayer 0 0 none []),
   (3, mkPlainLayer 0 0 (some 1) [])]

/-- `P2.append(L)` while L is still a member of P1. -/
def c2AfterScene : Scene := (appendChild c2Scene 2 3).getD []

/-- C3 scenario: a paused canvas with one visible top-level layer and a
pending key press. -/
def c3Scene : Scene := [(7, mkPlainLayer 0 0 none [])]

/-- The paused canvas of the C3 scenario. -/
def c3Canvas : CanvasState :=
  { layers := [7], frame := 3, elapsed := 0, paused := true,
    onKeyPressed := true }

/-- C6 scenario: P (id 1, 100x100 at the origin) contains Q (id 2, 20x20 at
(50,50), duration 1.0). -/
def c6Scene : Scene :=
  [(1, mkPlainLayer 0 0 none [2]),
   (2, { Layer.init 50 50 (some 20) (some 20) 0 0 .relative 1 0 1 1 0 with
           parent := some 1 })]

/-- `Q.set_position(70, 50)` — there is no such method in the source; the
spec's description matches the x/y property setters, so it is modelled as
`Q.xy = (70, 50)` at clock time 0. -/
def c6SceneSet : Scene := sceneSetXY c6Scene 2 70 50 0

/-- One canvas update pass at wall time 0.5 (the clock advanced by 0.5s). -/
def c6After : Option (CanvasState × Scene × ℚ × List KeyDelivery) :=
  canvasUpdate 5
    { layers := [1], frame := 0, elapsed := 0, paused := false,
      onKeyPressed := false }
    c6SceneSet 0 (1 / 2) (1 / 2)

/-- Q's layer state after the update pass. -/
def c6QFinal : Layer :=
  ((c6After.map (fun r => r.2.1)).bind (fun s => s.find 2)).getD
    (mkPlainLayer 0 0 none [])

/-- C9 counterexample layer: fixed 100x100 size but duration 1, origin
initially (0,0) relative. -/
def c9L : Layer := Layer.init 0 0 (some 100) (some 100) 0 0 .relative 1 0 1 1 0

/-- origin(1/2, 1/2, relative=True) followed by origin(relative=True) on a
layer with duration 1. -/
def c9Res : ℚ × ℚ :=
  (((c9L.origin (some (1 / 2)) (some (1 / 2)) true 0).1).origin
    none none true 0).2

/-- C5 layer: any layer; the scale assignment is evaluated on it. -/
def c5L : Layer := Layer.init 0 0 (some 100) (some 100) 0 0 .relative 1 0 1 1 0

/-- The translation `Layer._draw` applies with `glTranslatef`: the rounded
current (still animating) position, not the attribute (stop) value. -/
def Layer.drawTranslation (L : Layer) : ℤ × ℤ :=
  (pyround L.x.current, pyround L.y.current)

/-- Cosine oracle for scenes whose rotations are all 0 degrees: constantly 1
(only its value at 0 matters there). -/
def cosOracle0 : ℚ → ℚ := fun _ => 1

/-- Sine oracle for scenes whose rotations are all 0 degrees: constantly 0. -/
def sinOracle0 : ℚ → ℚ := fun _ => 0

/-- C4 witness scenario: parent P (id 1, 100x100 at the origin) with the
siblings X (id 2, 20x20 at (0,0), appended first) and Y (id 3, 20x20 at
(5,5), appended second), both with top = true; the probe point (10,10) lies
inside both. -/
def c4Scene : Scene :=
  [(1, mkPlainLayer 0 0 none [2, 3]),
   (2, { Layer.init 0 0 (some 20) (some 20) 0 0 .relative 1 0 1 0 0 with
           parent := some 1 }),
   (3, { Layer.init 5 5 (some 20) (some 20) 0 0 .relative 1 0 1 0 0 with
           parent := some 1 })]

/-- The parent's own hit test of the C4 scenario (the first step of
`P.layer_at(10, 10)`). -/
def c4Step1 : Option (Scene × Bool) :=
  contains cosOracle0 sinOracle0 5 c4Scene 1 10 10 true

/-- The scene state after the parent's hit test. -/
def c4s1 : Scene := (c4Step1.map Prod.fst).getD []

/-- The parent's own hit answer. -/
def c4hp : Bool := (c4Step1.map Prod.snd).getD false

/-- Y's hit test, run on the state the parent's hit test produced. -/
def c4Step2 : Option (Scene × Bool) :=
  contains cosOracle0 sinOracle0 4 c4s1 3 10 10 true

/-- The scene state after Y's hit test. -/
def c4s2 : Scene := (c4Step2.map Prod.fst).getD []

/-- The cumulative (world) matrix of the leaf of a chain A → B → C exactly as
`Layer._transform(local=False)` composes it when no cache intervenes: each
child's local matrix prepended with its parent's cumulative matrix translated
by the parent's rounded absolute origin. -/
def chainWorld (A B C : Layer) : TAff :=
  let tA := A.computeLocalTransform
  let oA := A.originAbs
  let tB := (B.computeLocalTransform).prepend
    ((tA.copy).translate (pyround oA.1 : ℚ) (pyround oA.2 : ℚ))
  let oB := B.originAbs
  (C.computeLocalTransform).prepend
    ((tB.copy).translate (pyround oB.1 : ℚ) (pyround oB.2 : ℚ))

/-- Reading layer i's world transform first and then layer j's, returning j's
matrix: the read order a hit-test from the root induces (ancestors are hit
tested before their descendants). -/
def worldThrough (fuel : ℕ) (s : Scene) (i j : ℕ) : Option TAff :=
  match transform fuel s i false with
  | none => none
  | some (s2, _) => (transform fuel s2 j false).map Prod.snd

/-- A layer with both transform caches emptied, as `clearCaches` leaves
it. -/
def Layer.cleared (L : Layer) : Layer :=
  { L with transformCache := none, transformStack := none }

/-- A layer with its local-transform cache just refilled from its own
transitions: the `self._transform_cache = tf` write of `Layer._transform`. -/
def Layer.cached (L : Layer) : Layer :=
  { L with transformCache := some L.computeLocalTransform }

/-- A layer with its cumulative cache emptied: the `_flush` write of
`Layer._transform`. -/
def Layer.stackless (L : Layer) : Layer := { L with transformStack := none }

/-- A layer with its cumulative cache set: the `self._transform_stack = ...`
write of `Layer._transform`. -/
def Layer.withStack (L : Layer) (t : TAff) : Layer :=
  { L with transformStack := some t }

/-- A's layer record in the cache-filled C1 scene. -/
def c1A : Layer := (c1Filled.find 0).getD (mkPlainLayer 0 0 none [])

/-- B's layer record in the cache-filled C1 scene. -/
def c1B : Layer := (c1Filled.find 1).getD (mkPlainLayer 0 0 none [])

/-- C's layer record in the cache-filled C1 scene. -/
def c1C : Layer := (c1Filled.find 2).getD (mkPlainLayer 0 0 none [])

/-- C's cached cumulative matrix in the cache-filled C1 scene. -/
def c1stC : TAff := c1C.transformStack.getD []

end NodeBoxGL

/-- C7: FALSE as stated.  With a negative duration, `set(v, d)` does not
resolve immediately: `current` keeps its old value 0 rather than 5, because
the source guards the snap with Python truthiness (`if not duration:`), which
only fires for duration exactly 0. -/
theorem NodeBoxGL.c7_counterexample :
    NodeBoxGL.c7Tr.current = 0 ∧ NodeBoxGL.c7Tr.get = 5 ∧ (0 : ℚ) ≠ 5 := by
  refine ⟨rfl, rfl, by norm_num⟩

/-- C7 amended: `set(v, d)` resolves immediately (current = target = v without
any `update()`) exactly when d = 0; for d < 0 only the target becomes v, and
the current value keeps its old value until the next `update()`, which
completes at once (the end time is already in the past) and sets current = v
reporting done. -/
theorem NodeBoxGL.c7_amended (tr : NodeBoxGL.Transition) (v d now : ℚ) :
    (d = 0 → ((tr.set v d now).current = v ∧ (tr.set v d now).get = v)) ∧
    (d < 0 → ((tr.set v d now).current = tr.current ∧ (tr.set v d now).get = v ∧
      ((tr.set v d now).update now).1.current = v ∧
      ((tr.set v d now).update now).2 = true)) := by
  constructor
  · intro h
    subst h
    simp [Transition.set, Transition.current, Transition.get]
  · intro h
    have hne : d ≠ 0 := ne_of_lt h
    have hle : now + d ≤ now := by linarith
    constructor
    · simp [Transition.set, Transition.current, hne]
    · refine ⟨rfl, ?_, ?_⟩ <;>
        simp [Transition.set, Transition.update, Transition.current, hne, hle]

/-- Witness for the C7 amended theorem at concrete inputs d = 0 and d = -1. -/
theorem NodeBoxGL.c7_amended_witness :
    ((NodeBoxGL.Transition.init 0 0 .smooth).set 5 0 0).current = 5 ∧
    (((NodeBoxGL.Transition.init 0 0 .smooth).set 5 (-1) 0).update 0).1.current = 5 := by
  have h0 := NodeBoxGL.c7_amended (NodeBoxGL.Transition.init 0 0 .smooth) 5 0 0
  have h1 := NodeBoxGL.c7_amended (NodeBoxGL.Transition.init 0 0 .smooth) 5 (-1) 0
  exact ⟨(h0.1 rfl).1, (h1.2 (by norm_num)).2.2.1⟩

/-- C8: for any transition re-targeted to `v1` over a positive duration `d` at
time `t0`, invoking `update` at any time `now ≥ t0 + d` sets the current value
to exactly `v1` (direct assignment, no interpolation) and reports done. -/
theorem NodeBoxGL.c8_update_completion (tr : NodeBoxGL.Transition)
    (v1 d t0 now : ℚ) (hd : 0 < d) (hnow : t0 + d ≤ now) :
    ((tr.set v1 d t0).update now).1.current = v1 ∧
    ((tr.set v1 d t0).update now).2 = true := by
  constructor <;> simp [Transition.set, Transition.update, Transition.current, hnow]

/-- Witness for C8 at `v1 = 7`, `d = 2`, `t0 = 0`, `now = 3`. -/
theorem NodeBoxGL.c8_update_completion_witness :
    (((NodeBoxGL.Transition.init 1 0 .smooth).set 7 2 0).update 3).1.current = 7 := by
  exact (NodeBoxGL.c8_update_completion (NodeBoxGL.Transition.init 1 0 .smooth)
    7 2 0 3 (by norm_num) (by norm_num)).1

unseal Rat.add Rat.mul Rat.sub Rat.inv in
/-- C1: FALSE as stated.  In the cached tree A → B → C, after mutating A's
rotation (0 → 90 degrees) the very next read of C's cumulative (world)
transform returns exactly the pre-mutation cached matrix: it does not contain
the new rotation, while a recomputation with cleared caches does.  Mutating
`rotation` only empties A's local cache; descendants' cumulative caches are
flushed only when A's local transform is next recomputed. -/
theorem NodeBoxGL.c1_counterexample :
    NodeBoxGL.c1Step2.map Prod.snd = NodeBoxGL.c1Step1.map Prod.snd ∧
    NodeBoxGL.c1Step2.map Prod.snd ≠ NodeBoxGL.c1Fresh.map Prod.snd ∧
    NodeBoxGL.TOp.rotate 90 ∉ (NodeBoxGL.c1Step2.map Prod.snd).getD [] ∧
    NodeBoxGL.TOp.rotate 90 ∈ (NodeBoxGL.c1Fresh.map Prod.snd).getD [] := by
  refine ⟨by decide, by decide, by decide, by decide⟩

unseal Rat.add Rat.mul Rat.sub Rat.inv in
/-- C2: FALSE as stated.  Appending L (id 3) to P2 (id 2) while L is still a
member of P1 (id 1) leaves L in both children lists and re-points L's parent
at P2, so P1 lists a layer whose parent pointer does not refer back to it. -/
theorem NodeBoxGL.c2_counterexample :
    (NodeBoxGL.c2AfterScene.find 1).map NodeBoxGL.Layer.children = some [3] ∧
    (NodeBoxGL.c2AfterScene.find 2).map NodeBoxGL.Layer.children = some [3] ∧
    (NodeBoxGL.c2AfterScene.find 3).map NodeBoxGL.Layer.parent =
      some (some 2) := by
  refine ⟨by decide, by decide, by decide⟩

unseal Rat.add Rat.mul Rat.sub Rat.inv in
/-- C3: FALSE as stated.  On a paused canvas the draw pass is skipped
entirely — `Canvas._draw` returns before any drawing — whereas on the same
canvas unpaused it performs the background, layer and overlay draws. -/
theorem NodeBoxGL.c3_counterexample :
    NodeBoxGL.canvasDraw 5 NodeBoxGL.c3Canvas NodeBoxGL.c3Scene = [] ∧
    NodeBoxGL.canvasDraw 5 { NodeBoxGL.c3Canvas with paused := false }
        NodeBoxGL.c3Scene =
      [.background, .layerContent 7, .overlay] := by
  refine ⟨by decide, by decide⟩

/-- C3 amended: on a paused canvas the update pass is skipped — no layer
transition advances (the scene is unchanged), the frame counter and the
global clock are not advanced — queued key input is still delivered to the
canvas and its layers, and the draw pass is also skipped (no draw call is
made; the window simply keeps its previous contents). -/
theorem NodeBoxGL.c3_amended (fuel : ℕ) (c : NodeBoxGL.CanvasState)
    (s : NodeBoxGL.Scene) (time wall lapse : ℚ) (h : c.paused = true) :
    NodeBoxGL.canvasUpdate fuel c s time wall lapse =
      some ({ c with elapsed := lapse, onKeyPressed := false }, s, time,
        if c.onKeyPressed then
          .toCanvas :: c.layers.map .toLayer
        else []) ∧
    NodeBoxGL.canvasDraw fuel c s = [] := by
  obtain ⟨layers, frame, elapsed, paused, onKeyPressed⟩ := c
  dsimp at h
  subst h
  constructor
  · cases onKeyPressed <;> simp [canvasUpdate]
  · simp [canvasDraw]

unseal Rat.add Rat.mul Rat.sub Rat.inv in
/-- Witness for the C3 amended theorem on the concrete paused canvas. -/
theorem NodeBoxGL.c3_amended_witness :
    NodeBoxGL.canvasUpdate 5 NodeBoxGL.c3Canvas NodeBoxGL.c3Scene 0 (1 / 2)
        (1 / 2) =
      some ({ NodeBoxGL.c3Canvas with elapsed := 1 / 2, onKeyPressed := false },
        NodeBoxGL.c3Scene, 0, [.toCanvas, .toLayer 7]) ∧
    NodeBoxGL.canvasDraw 5 NodeBoxGL.c3Canvas NodeBoxGL.c3Scene = [] := by
  have h := NodeBoxGL.c3_amended 5 NodeBoxGL.c3Canvas NodeBoxGL.c3Scene 0
    (1 / 2) (1 / 2) rfl
  exact ⟨h.1.trans (by decide), h.2⟩

unseal Rat.add Rat.mul Rat.sub Rat.inv in
/-- C5: the claim matches the dead property setter, but in the source's class
body the later plain method `def scale(self, f)` rebinds the name, so the
assignment `layer.scale = v` writes an instance attribute: the `_scale`
transition and the local transform cache are untouched. -/
theorem NodeBoxGL.c5_scale_shadowed :
    NodeBoxGL.effectiveBinding NodeBoxGL.layerScaleClassDefs =
      some .method ∧
    (NodeBoxGL.c5L.setScaleAttr 2 0).scale = NodeBoxGL.c5L.scale ∧
    (NodeBoxGL.c5L.setScaleAttr 2 0).transformCache =
      NodeBoxGL.c5L.transformCache ∧
    (NodeBoxGL.c5L.setScaleAttr 2 0).instDict = [("scale", 2)] := by
  refine ⟨rfl, by decide, by decide, by decide⟩

unseal Rat.add Rat.mul Rat.sub Rat.inv in
/-- C6: FALSE as stated.  After `Q.xy = (70, 50)` (duration 1), advancing the
clock to 0.5 and one update pass, the attribute read `Q.x` returns the
transition's stop value 70, not the interpolated 60. -/
theorem NodeBoxGL.c6_counterexample :
    NodeBoxGL.c6QFinal.xGet = 70 ∧ (70 : ℚ) ≠ 60 := by
  refine ⟨by decide, by norm_num⟩

unseal Rat.add Rat.mul Rat.sub Rat.inv in
/-- C6 amended: the animating current value of Q's x transition — the value
drawing and hit-testing use — is the SMOOTH midpoint 60 after half the
animation, while the attribute read `Q.x` already returns the target 70. -/
theorem NodeBoxGL.c6_amended :
    NodeBoxGL.c6QFinal.x.current = 60 ∧
    NodeBoxGL.c6QFinal.drawTranslation = (60, 50) ∧
    NodeBoxGL.c6QFinal.xGet = 70 := by
  refine ⟨by decide, by decide, by decide⟩

unseal Rat.add Rat.mul Rat.sub Rat.inv in
/-- C9: FALSE as stated.  On a 100x100 layer with duration 1, setting the
relative origin to (1/2, 1/2) and reading it back returns the old origin
(0, 0): the getter reads the origin transitions' current values, which a
non-zero duration leaves unchanged until the animation advances. -/
theorem NodeBoxGL.c9_counterexample :
    NodeBoxGL.c9Res = (0, 0) ∧
    ((0 : ℚ), (0 : ℚ)) ≠ ((1 / 2 : ℚ), (1 / 2 : ℚ)) := by
  refine ⟨by decide, by decide⟩

/-- C9 amended: the round trip `origin(x, y, relative=True)` then
`origin(relative=True)` returns exactly (x, y) for a layer whose duration is
0 (the constructor default), for any width and height: the set then snaps the
origin transitions' current values immediately. -/
theorem NodeBoxGL.c9_amended (L : NodeBoxGL.Layer) (ox oy now now2 : ℚ)
    (h : L.duration = 0) :
    (((L.origin (some ox) (some oy) true now).1).origin
      none none true now2).2 = (ox, oy) := by
  simp [Layer.origin, Layer.setOrigin, Layer.originRel, Transition.set,
    Transition.current, h]

/-- Witness for the C9 amended theorem on a concrete 100x100 layer with
duration 0. -/
theorem NodeBoxGL.c9_amended_witness :
    ((((NodeBoxGL.mkPlainLayer 0 0 none []).origin (some (1 / 2))
      (some (1 / 4)) true 0).1).origin none none true 3).2 = (1 / 2, 1 / 4) :=
  NodeBoxGL.c9_amended (NodeBoxGL.mkPlainLayer 0 0 none []) (1 / 2) (1 / 4)
    0 3 rfl

/-- C10: the public geometry getters return the underlying transition's stop
(target) value, and immediately after `layer.x = v` on a layer with positive
duration the attribute read yields v while the current value — the one
`_draw`'s translation and the transform recomputation use — is unchanged. -/
theorem NodeBoxGL.c10_getters_return_target (L : NodeBoxGL.Layer)
    (v now : ℚ) (h : 0 < L.duration) :
    (L.xGet = L.x.v1 ∧ L.yGet = L.y.v1 ∧ L.widthGet = L.width.v1 ∧
      L.heightGet = L.height.v1 ∧ L.rotationGet = L.rotation.v1 ∧
      L.opacityGet = L.opacity.v1) ∧
    (L.setX v now).xGet = v ∧
    (L.setX v now).x.current = L.x.current ∧
    (L.setX v now).drawTranslation = L.drawTranslation ∧
    (L.setX v now).computeLocalTransform = L.computeLocalTransform := by
  have hne : L.duration ≠ 0 := ne_of_gt h
  refine ⟨⟨rfl, rfl, rfl, rfl, rfl, rfl⟩, ?_, ?_, ?_, ?_⟩
  · simp [Layer.setX, Layer.xGet, Transition.set, Transition.get]
  · simp [Layer.setX, Transition.set, Transition.current, hne]
  · simp [Layer.setX, Layer.drawTranslation, Transition.set,
      Transition.current, hne]
  · simp [Layer.setX, Layer.computeLocalTransform, Layer.originAbs,
      Transition.set, Transition.current, hne]

/-- Witness for C10 on a concrete layer with duration 1. -/
theorem NodeBoxGL.c10_getters_return_target_witness :
    (NodeBoxGL.c5L.setX 9 0).xGet = 9 ∧
    (NodeBoxGL.c5L.setX 9 0).x.current = NodeBoxGL.c5L.x.current :=
  ⟨(NodeBoxGL.c10_getters_return_target NodeBoxGL.c5L 9 0
      (by norm_num [NodeBoxGL.c5L, NodeBoxGL.Layer.init])).2.1,
   (NodeBoxGL.c10_getters_return_target NodeBoxGL.c5L 9 0
      (by norm_num [NodeBoxGL.c5L, NodeBoxGL.Layer.init])).2.2.1⟩

/-- How `Scene.find` reads a cons cell. -/
theorem NodeBoxGL.scene_find_cons (a : ℕ × NodeBoxGL.Layer)
    (l : NodeBoxGL.Scene) (k : ℕ) :
    NodeBoxGL.Scene.find (a :: l) k =
      if a.1 = k then some a.2 else NodeBoxGL.Scene.find l k := by
  have h : NodeBoxGL.Scene.find (a :: l) k =
      if (a.1 == k) = true then some a.2 else NodeBoxGL.Scene.find l k := by
    simp only [NodeBoxGL.Scene.find, List.find?]
    cases a.1 == k <;> simp
  rw [h]
  simp only [beq_iff_eq]

/-- How `Scene.set` rewrites a cons cell. -/
theorem NodeBoxGL.scene_set_cons (a : ℕ × NodeBoxGL.Layer)
    (l : NodeBoxGL.Scene) (i : ℕ) (L : NodeBoxGL.Layer) :
    NodeBoxGL.Scene.set (a :: l) i L =
      (if a.1 = i then (i, L) else a) :: NodeBoxGL.Scene.set l i L := by
  have h : NodeBoxGL.Scene.set (a :: l) i L =
      (if (a.1 == i) = true then (i, L) else a) ::
        NodeBoxGL.Scene.set l i L := rfl
  rw [h]
  simp only [beq_iff_eq]

/-- Reading a scene after a `Scene.set`: the stored layer under the written
id (when that id exists), every other id unchanged. -/
theorem NodeBoxGL.scene_find_set (s : NodeBoxGL.Scene) (i j : ℕ)
    (L : NodeBoxGL.Layer) :
    (s.set i L).find j =
      if j = i then (s.find i).map (fun _ => L) else s.find j := by
  induction s with
  | nil =>
    simp [NodeBoxGL.Scene.set, NodeBoxGL.Scene.find]
  | cons e t ih =>
    rw [NodeBoxGL.scene_set_cons, NodeBoxGL.scene_find_cons,
      NodeBoxGL.scene_find_cons, NodeBoxGL.scene_find_cons]
    by_cases h1 : e.1 = i
    · rw [if_pos h1, if_pos h1]
      by_cases h2 : j = i
      · subst h2; simp
      · simp only [show (i, L).1 = i from rfl]
        rw [if_neg (fun h => h2 h.symm), if_neg h2, ih, if_neg h2,
          if_neg (h1 ▸ (fun h => h2 h.symm) : ¬ e.1 = j)]
    · rw [if_neg h1, if_neg h1]
      by_cases h2 : e.1 = j
      · have hji : ¬ j = i := fun h => h1 (h ▸ h2)
        rw [if_pos h2, if_neg hji, if_pos h2]
      · rw [if_neg h2, ih, if_neg h2]

/-- C2 amended: `Layer.append` only adds the layer to the new container's
child list and redirects the child's parent pointer — it does not remove the
layer from its previous container, whose stale membership survives.  The
atomic move the claim describes is what the `parent` property setter
(`_set_container`) performs: it removes the layer from the old container,
appends it to the new one, and repoints the parent reference, so no
double membership remains afterwards. -/
theorem NodeBoxGL.c2_amended
    (s : NodeBoxGL.Scene) (p1 p2 c : ℕ) (P1 P2 C : NodeBoxGL.Layer)
    (hp1 : s.find p1 = some P1) (hp2 : s.find p2 = some P2)
    (hc : s.find c = some C)
    (hd12 : p1 ≠ p2) (hd1c : c ≠ p1) (hd2c : c ≠ p2)
    (hparent : C.parent = some p1)
    (hmem : c ∈ P1.children)
    (hcount : P1.children.count c = 1)
    (hnot : c ∉ P2.children) :
    (∃ sA, NodeBoxGL.appendChild s p2 c = some sA ∧
      sA.find p1 = some P1 ∧
      (sA.find p2).map NodeBoxGL.Layer.children = some (P2.children ++ [c]) ∧
      (sA.find c).map NodeBoxGL.Layer.parent = some (some p2)) ∧
    (∃ sB, NodeBoxGL.setParent s c (some p2) = some sB ∧
      (sB.find p1).map NodeBoxGL.Layer.children =
        some (P1.children.erase c) ∧
      c ∉ P1.children.erase c ∧
      (sB.find p2).map NodeBoxGL.Layer.children = some (P2.children ++ [c]) ∧
      (sB.find c).map NodeBoxGL.Layer.parent = some (some p2)) := by
  constructor
  · refine ⟨(s.set p2 { P2 with children := P2.children ++ [c] }).set c
      { C with parent := some p2 }, ?_, ?_, ?_, ?_⟩
    · simp [NodeBoxGL.appendChild, hp2, hc]
    · rw [NodeBoxGL.scene_find_set, if_neg (Ne.symm hd1c),
        NodeBoxGL.scene_find_set, if_neg hd12, hp1]
    · rw [NodeBoxGL.scene_find_set, if_neg (Ne.symm hd2c),
        NodeBoxGL.scene_find_set, if_pos rfl, hp2]
      rfl
    · rw [NodeBoxGL.scene_find_set, if_pos rfl, NodeBoxGL.scene_find_set,
        if_neg hd2c, hc]
      rfl
  · have h1 : NodeBoxGL.removeChild s p1 c =
        some ((s.set p1 { P1 with children := P1.children.erase c }).set c
          { C with parent := none }) := by
      simp [NodeBoxGL.removeChild, hp1, hc, hmem]
    have hfind2 : ((s.set p1
        { P1 with children := P1.children.erase c }).set c
        { C with parent := none }).find p2 = some P2 := by
      rw [NodeBoxGL.scene_find_set, if_neg (Ne.symm hd2c),
        NodeBoxGL.scene_find_set, if_neg (Ne.symm hd12), hp2]
    have hfindc : (((s.set p1
        { P1 with children := P1.children.erase c }).set c
        { C with parent := none }).set p2
          { P2 with children := P2.children ++ [c] }).find c =
        some { C with parent := none } := by
      rw [NodeBoxGL.scene_find_set, if_neg hd2c, NodeBoxGL.scene_find_set,
        if_pos rfl, NodeBoxGL.scene_find_set, if_neg hd1c, hc]
      rfl
    refine ⟨((((s.set p1 { P1 with children := P1.children.erase c }).set c
      { C with parent := none }).set p2
        { P2 with children := P2.children ++ [c] }).set c
          { { C with parent := none } with
              parent := some p2 }), ?_, ?_, ?_, ?_, ?_⟩
    · simp [NodeBoxGL.setParent, hc, hparent, hp1, hmem, h1, hfind2, hnot,
        hfindc]
    · rw [NodeBoxGL.scene_find_set, if_neg (Ne.symm hd1c),
        NodeBoxGL.scene_find_set, if_neg hd12, NodeBoxGL.scene_find_set,
        if_neg (Ne.symm hd1c), NodeBoxGL.scene_find_set, if_pos rfl, hp1]
      rfl
    · intro hmem2
      have h0 : (P1.children.erase c).count c = 0 := by
        rw [List.count_erase_self, hcount]
      exact (List.count_eq_zero.mp h0) hmem2
    · rw [NodeBoxGL.scene_find_set, if_neg (Ne.symm hd2c),
        NodeBoxGL.scene_find_set, if_pos rfl, hfind2]
      rfl
    · rw [NodeBoxGL.scene_find_set, if_pos rfl, hfindc]
      rfl

unseal Rat.add Rat.mul Rat.sub Rat.inv in
/-- Witness for the C2 amended theorem on the concrete scene of the
counterexample (P1 = id 1 holding L = id 3, P2 = id 2 empty). -/
theorem NodeBoxGL.c2_amended_witness :
    (∃ sA, NodeBoxGL.appendChild NodeBoxGL.c2Scene 2 3 = some sA ∧
      sA.find 1 = some (NodeBoxGL.mkPlainLayer 0 0 none [3]) ∧
      (sA.find 2).map NodeBoxGL.Layer.children = some [3] ∧
      (sA.find 3).map NodeBoxGL.Layer.parent = some (some 2)) ∧
    (∃ sB, NodeBoxGL.setParent NodeBoxGL.c2Scene 3 (some 2) = some sB ∧
      (sB.find 1).map NodeBoxGL.Layer.children = some [] ∧
      (3 : ℕ) ∉ ([] : List ℕ) ∧
      (sB.find 2).map NodeBoxGL.Layer.children = some [3] ∧
      (sB.find 3).map NodeBoxGL.Layer.parent = some (some 2)) :=
  NodeBoxGL.c2_amended NodeBoxGL.c2Scene 1 2 3
    (NodeBoxGL.mkPlainLayer 0 0 none [3])
    (NodeBoxGL.mkPlainLayer 0 0 none [])
    (NodeBoxGL.mkPlainLayer 0 0 (some 1) [])
    (by decide) (by decide) (by decide) (by decide) (by decide) (by decide)
    (by decide) (by decide) (by decide) (by decide)

/-- C4: given a parent whose child list is [X, Y] (X appended first) with
both siblings top = true and both containing the point — the parent's own
hit answer may be anything — `layer_at` run with the Canvas defaults
(clipped and enabled off, transformed on) returns Y: children are traversed
in reverse append order, stably bucketed by the top flag, so the
later-appended (visually frontmost) sibling is tested first and wins. -/
theorem NodeBoxGL.c4_frontmost_sibling_wins
    (cs sn : ℚ → ℚ) (f : ℕ) (s s1 s2 : NodeBoxGL.Scene)
    (pid xid yid : ℕ) (px py : ℚ) (hp : Bool)
    (hP : (s.find pid).map (fun L => (L.hidden, L.children)) =
      some (false, [xid, yid]))
    (hcp : NodeBoxGL.contains cs sn (f + 2) s pid px py true = some (s1, hp))
    (hX : (s1.find xid).map NodeBoxGL.Layer.top = some true)
    (hY : (s1.find yid).map (fun L => (L.hidden, L.top, L.children)) =
      some (false, true, []))
    (hcy : NodeBoxGL.contains cs sn (f + 1) s1 yid px py true =
      some (s2, true)) :
    NodeBoxGL.layerAt cs sn (f + 2) s pid px py false false true false =
      some (s2, some yid) := by
  obtain ⟨P, hPfind, hPeq⟩ := Option.map_eq_some'.mp hP
  simp only [Prod.mk.injEq] at hPeq
  obtain ⟨hPhidden, hPchildren⟩ := hPeq
  obtain ⟨X, hXfind, hXtop⟩ := Option.map_eq_some'.mp hX
  obtain ⟨Y, hYfind, hYeq⟩ := Option.map_eq_some'.mp hY
  simp only [Prod.mk.injEq] at hYeq
  obtain ⟨hYhidden, hYtop, hYchildren⟩ := hYeq
  simp only [show f + 2 = (f + 1) + 1 from rfl, layerAt, layerAtLoop,
    hPfind, hPhidden, hPchildren, hXfind, hXtop, hYfind, hYhidden, hYtop,
    hYchildren, hcp, hcy, Bool.false_and, Bool.not_true, Bool.and_false,
    Bool.or_false, Bool.false_or, List.reverse_cons, List.reverse_nil,
    List.nil_append, List.singleton_append, List.filter, List.append_nil,
    if_false, if_true, Bool.false_eq_true, ite_false, ite_true]

unseal Rat.add Rat.mul Rat.sub Rat.inv in
/-- Witness for C4 on the concrete scene: P (id 1) with X (id 2) at (0,0) and
Y (id 3) at (5,5), both 20x20 and top, probed at (10,10); the hit test
returns Y. -/
theorem NodeBoxGL.c4_frontmost_sibling_wins_witness :
    NodeBoxGL.layerAt NodeBoxGL.cosOracle0 NodeBoxGL.sinOracle0 5
      NodeBoxGL.c4Scene 1 10 10 false false true false =
      some (NodeBoxGL.c4s2, some 3) :=
  NodeBoxGL.c4_frontmost_sibling_wins NodeBoxGL.cosOracle0
    NodeBoxGL.sinOracle0 3 NodeBoxGL.c4Scene NodeBoxGL.c4s1 NodeBoxGL.c4s2
    1 2 3 10 10 NodeBoxGL.c4hp
    (by decide) (by decide) (by decide) (by decide) (by decide)

theorem NodeBoxGL.scene_find_clear (s : NodeBoxGL.Scene) (j : ℕ) :
    (NodeBoxGL.clearCaches s).find j =
      (s.find j).map NodeBoxGL.Layer.cleared := by
  induction s with
  | nil => rfl
  | cons e t ih =>
    have h1 : NodeBoxGL.clearCaches (e :: t) =
        (e.1, e.2.cleared) :: NodeBoxGL.clearCaches t := rfl
    rw [h1, NodeBoxGL.scene_find_cons, NodeBoxGL.scene_find_cons]
    by_cases h : e.1 = j
    · simp [h]
    · simp [h, ih]

theorem NodeBoxGL.cleared_transformCache (L : NodeBoxGL.Layer) :
    L.cleared.transformCache = none := rfl

theorem NodeBoxGL.cleared_transformStack (L : NodeBoxGL.Layer) :
    L.cleared.transformStack = none := rfl

theorem NodeBoxGL.cleared_parent (L : NodeBoxGL.Layer) :
    L.cleared.parent = L.parent := rfl

theorem NodeBoxGL.cleared_children (L : NodeBoxGL.Layer) :
    L.cleared.children = L.children := rfl

theorem NodeBoxGL.cleared_computeLocalTransform (L : NodeBoxGL.Layer) :
    L.cleared.computeLocalTransform = L.computeLocalTransform := rfl

theorem NodeBoxGL.cleared_originAbs (L : NodeBoxGL.Layer) :
    L.cleared.originAbs = L.originAbs := rfl

theorem NodeBoxGL.setRotation_parent (L : NodeBoxGL.Layer) (v now : ℚ) :
    (L.setRotation v now).parent = L.parent := rfl

theorem NodeBoxGL.setRotation_children (L : NodeBoxGL.Layer) (v now : ℚ) :
    (L.setRotation v now).children = L.children := rfl

theorem NodeBoxGL.setRotation_originAbs (L : NodeBoxGL.Layer) (v now : ℚ) :
    (L.setRotation v now).originAbs = L.originAbs := rfl

theorem NodeBoxGL.stackless_transformCache (L : NodeBoxGL.Layer) :
    L.stackless.transformCache = L.transformCache := rfl

theorem NodeBoxGL.stackless_transformStack (L : NodeBoxGL.Layer) :
    L.stackless.transformStack = none := rfl

theorem NodeBoxGL.stackless_parent (L : NodeBoxGL.Layer) :
    L.stackless.parent = L.parent := rfl

theorem NodeBoxGL.stackless_originAbs (L : NodeBoxGL.Layer) :
    L.stackless.originAbs = L.originAbs := rfl

theorem NodeBoxGL.stackless_computeLocalTransform (L : NodeBoxGL.Layer) :
    L.stackless.computeLocalTransform = L.computeLocalTransform := rfl

theorem NodeBoxGL.cached_transformCache (L : NodeBoxGL.Layer) :
    L.cached.transformCache = some L.computeLocalTransform := rfl

theorem NodeBoxGL.cached_parent (L : NodeBoxGL.Layer) :
    L.cached.parent = L.parent := rfl

theorem NodeBoxGL.cached_originAbs (L : NodeBoxGL.Layer) :
    L.cached.originAbs = L.originAbs := rfl

theorem NodeBoxGL.cached_computeLocalTransform (L : NodeBoxGL.Layer) :
    L.cached.computeLocalTransform = L.computeLocalTransform := rfl

theorem NodeBoxGL.withStack_transformCache (L : NodeBoxGL.Layer)
    (t : NodeBoxGL.TAff) : (L.withStack t).transformCache =
      L.transformCache := rfl

theorem NodeBoxGL.withStack_transformStack (L : NodeBoxGL.Layer)
    (t : NodeBoxGL.TAff) : (L.withStack t).transformStack = some t := rfl

theorem NodeBoxGL.withStack_parent (L : NodeBoxGL.Layer)
    (t : NodeBoxGL.TAff) : (L.withStack t).parent = L.parent := rfl

theorem NodeBoxGL.withStack_originAbs (L : NodeBoxGL.Layer)
    (t : NodeBoxGL.TAff) : (L.withStack t).originAbs = L.originAbs := rfl

/-- C1 amended: for every layer tree A → B → C with all transform caches
filled (B's and C's local caches holding their recomputed matrices),
mutating A's rotation empties only A's local cache, so the very next direct
read of C's cumulative (world) transform returns the stale cached matrix
with the scene untouched.  Once A's local transform is recomputed — the
first step of any hit-test entering the tree at A — reading C's world
transform yields exactly what a recomputation with no caches at all yields
(no stale cache remains): the ancestor composition of the three local
matrices built from the transitions' current values.  That matrix carries
A's current rotation, which equals the newly assigned value exactly when A's
duration is 0 (the constructor default, making the write instantaneous);
with a non-zero duration the rotation transition is only re-targeted and the
current value moves toward the new rotation on later update() calls. -/
theorem NodeBoxGL.c1_amended
    (s : NodeBoxGL.Scene) (a b c : ℕ) (A B C : NodeBoxGL.Layer)
    (stC : NodeBoxGL.TAff) (θ now : ℚ) (f : ℕ)
    (ha : s.find a = some A) (hb : s.find b = some B) (hc : s.find c = some C)
    (hab : a ≠ b) (hbc : b ≠ c) (hac : a ≠ c)
    (hAp : A.parent = none) (hAc : A.children = [b])
    (hBp : B.parent = some a) (hBc : B.children = [c])
    (hCp : C.parent = some b) (hCc : C.children = [])
    (hAcache : A.transformCache.isSome = true)
    (hAstack : A.transformStack.isSome = true)
    (hBcache : B.transformCache = some B.computeLocalTransform)
    (hBstack : B.transformStack.isSome = true)
    (hCcache : C.transformCache = some C.computeLocalTransform)
    (hCstack : C.transformStack = some stC) :
    NodeBoxGL.transform (f + 5) (NodeBoxGL.sceneSetRotation s a θ now) c
      false = some (NodeBoxGL.sceneSetRotation s a θ now, stC) ∧
    NodeBoxGL.worldThrough (f + 5) (NodeBoxGL.sceneSetRotation s a θ now)
      a c = some (NodeBoxGL.chainWorld (A.setRotation θ now) B C) ∧
    (NodeBoxGL.transform (f + 5)
      (NodeBoxGL.clearCaches (NodeBoxGL.sceneSetRotation s a θ now)) c
      false).map Prod.snd =
      some (NodeBoxGL.chainWorld (A.setRotation θ now) B C) ∧
    NodeBoxGL.TOp.rotate (A.setRotation θ now).rotation.current ∈
      NodeBoxGL.chainWorld (A.setRotation θ now) B C ∧
    (A.duration = 0 → (A.setRotation θ now).rotation.current = θ) := by
  have hs2 : NodeBoxGL.sceneSetRotation s a θ now =
      s.set a (A.setRotation θ now) := by
    simp [NodeBoxGL.sceneSetRotation, ha]
  have h2c : (s.set a (A.setRotation θ now)).find c = some C := by
    rw [NodeBoxGL.scene_find_set, if_neg (Ne.symm hac), hc]
  have hread : NodeBoxGL.transform (f + 5)
      (s.set a (A.setRotation θ now)) a false =
      some ((((((s.set a (A.setRotation θ now)).set a
          (A.setRotation θ now).cached).set a
          (A.setRotation θ now).cached.stackless).set b
          B.stackless).set c C.stackless).set a
            ((A.setRotation θ now).cached.stackless.withStack
              (NodeBoxGL.TAff.copy
                (A.setRotation θ now).computeLocalTransform)),
        NodeBoxGL.TAff.copy (A.setRotation θ now).computeLocalTransform) := by
    simp only [show f + 5 = (f + 4) + 1 from rfl,
      show f + 4 = (f + 3) + 1 from rfl, show f + 3 = (f + 2) + 1 from rfl,
      NodeBoxGL.transform, NodeBoxGL.flushStack, NodeBoxGL.Layer.setRotation,
      NodeBoxGL.Layer.cached, NodeBoxGL.Layer.stackless,
      NodeBoxGL.Layer.withStack,
      NodeBoxGL.scene_find_set, ha, hb, hc, hAc, hBc, hCc, hAp,
      hab, hbc, hac, Ne.symm hab, Ne.symm hbc, Ne.symm hac,
      List.foldl_cons, List.foldl_nil, Option.map_some', eq_self_iff_true,
      if_true, if_false, Bool.false_eq_true, ite_true, ite_false]
  refine ⟨?_, ?_, ?_, ?_, ?_⟩
  · rw [hs2]
    simp only [show f + 5 = (f + 4) + 1 from rfl, NodeBoxGL.transform, h2c,
      hCcache, hCstack, Bool.false_eq_true, if_false]
  · rw [hs2]
    simp only [NodeBoxGL.worldThrough, hread]
    simp only [show f + 5 = (f + 4) + 1 from rfl,
      show f + 4 = (f + 3) + 1 from rfl, show f + 3 = (f + 2) + 1 from rfl,
      NodeBoxGL.transform, NodeBoxGL.scene_find_set, ha, hb, hc, hBp, hCp,
      hBcache, hCcache, hab, hbc, hac, Ne.symm hab, Ne.symm hbc, Ne.symm hac,
      NodeBoxGL.stackless_transformCache, NodeBoxGL.stackless_transformStack,
      NodeBoxGL.stackless_parent, NodeBoxGL.stackless_originAbs,
      NodeBoxGL.cached_transformCache, NodeBoxGL.cached_parent,
      NodeBoxGL.cached_originAbs, NodeBoxGL.cached_computeLocalTransform,
      NodeBoxGL.stackless_computeLocalTransform,
      NodeBoxGL.withStack_transformCache, NodeBoxGL.withStack_transformStack,
      NodeBoxGL.withStack_parent, NodeBoxGL.withStack_originAbs,
      NodeBoxGL.chainWorld, NodeBoxGL.TAff.copy, Option.map_some',
      eq_self_iff_true,
      if_true, if_false, Bool.false_eq_true, ite_true, ite_false]
  · rw [hs2]
    simp only [show f + 5 = (f + 4) + 1 from rfl,
      show f + 4 = (f + 3) + 1 from rfl, show f + 3 = (f + 2) + 1 from rfl,
      show f + 2 = (f + 1) + 1 from rfl,
      NodeBoxGL.transform, NodeBoxGL.flushStack, NodeBoxGL.scene_find_clear,
      NodeBoxGL.scene_find_set, ha, hb, hc, hAp, hAc, hBp, hBc, hCp, hCc,
      hab, hbc, hac, Ne.symm hab, Ne.symm hbc, Ne.symm hac,
      NodeBoxGL.cleared_transformCache, NodeBoxGL.cleared_transformStack,
      NodeBoxGL.cleared_parent, NodeBoxGL.cleared_children,
      NodeBoxGL.cleared_computeLocalTransform, NodeBoxGL.cleared_originAbs,
      NodeBoxGL.setRotation_parent, NodeBoxGL.setRotation_children,
      NodeBoxGL.setRotation_originAbs,
      NodeBoxGL.chainWorld, NodeBoxGL.TAff.copy, List.foldl_cons,
      List.foldl_nil, Option.map_some', eq_self_iff_true,
      if_true, if_false, Bool.false_eq_true, ite_true, ite_false]
  · have hmem : NodeBoxGL.TOp.rotate (A.setRotation θ now).rotation.current ∈
        (A.setRotation θ now).computeLocalTransform := by
      cases hf : (A.setRotation θ now).flipped <;>
        simp [NodeBoxGL.Layer.computeLocalTransform, NodeBoxGL.TAff.identity,
          NodeBoxGL.TAff.translate, NodeBoxGL.TAff.rotate,
          NodeBoxGL.TAff.scaleBy, hf]
    simp only [NodeBoxGL.chainWorld, NodeBoxGL.TAff.prepend,
      NodeBoxGL.TAff.copy, NodeBoxGL.TAff.translate, List.append_assoc,
      List.mem_append]
    tauto
  · intro h
    simp [NodeBoxGL.Layer.setRotation, NodeBoxGL.Transition.set,
      NodeBoxGL.Transition.current, h]

unseal Rat.add Rat.mul Rat.sub Rat.inv in
/-- Witness for the C1 amended theorem on the concrete cache-filled chain of
the counterexample (A = id 0, B = id 1, C = id 2, every duration 0), with
the rotation mutated from 0 to 90 degrees at clock time 1. -/
theorem NodeBoxGL.c1_amended_witness :
    NodeBoxGL.transform 5 NodeBoxGL.c1Mutated 2 false =
      some (NodeBoxGL.c1Mutated, NodeBoxGL.c1stC) ∧
    NodeBoxGL.worldThrough 5 NodeBoxGL.c1Mutated 0 2 =
      some (NodeBoxGL.chainWorld (NodeBoxGL.c1A.setRotation 90 1)
        NodeBoxGL.c1B NodeBoxGL.c1C) ∧
    (NodeBoxGL.transform 5 (NodeBoxGL.clearCaches NodeBoxGL.c1Mutated) 2
      false).map Prod.snd =
      some (NodeBoxGL.chainWorld (NodeBoxGL.c1A.setRotation 90 1)
        NodeBoxGL.c1B NodeBoxGL.c1C) ∧
    NodeBoxGL.TOp.rotate (NodeBoxGL.c1A.setRotation 90 1).rotation.current ∈
      NodeBoxGL.chainWorld (NodeBoxGL.c1A.setRotation 90 1) NodeBoxGL.c1B
        NodeBoxGL.c1C ∧
    (NodeBoxGL.c1A.duration = 0 →
      (NodeBoxGL.c1A.setRotation 90 1).rotation.current = 90) :=
  NodeBoxGL.c1_amended NodeBoxGL.c1Filled 0 1 2 NodeBoxGL.c1A NodeBoxGL.c1B
    NodeBoxGL.c1C NodeBoxGL.c1stC 90 1 0
    (by decide) (by decide) (by decide) (by decide) (by decide) (by decide)
    (by decide) (by decide) (by decide) (by decide) (by decide) (by decide)
    (by decide) (by decide) (by decide) (by decide) (by decide) (by decide)
